import Mathlib

/-!
Verification of the bookstore seeding utility.

The program under study consists of two parts:
* `models.py` — two SQLAlchemy record kinds, `Book` (table `books`) and
  `Salesperson` (table `salespeople`), whose non-`id` columns are all
  nullable, and whose `id` columns are integer primary keys assigned by
  the SQLite backend on insert;
* `seed.py` — a routine `seed()` that opens a session on the SQLite file,
  deletes every `Book` and every `Salesperson` row, prints two progress
  lines, generates 50 books and 20 salespeople with randomized field
  values (`faker` names/datetimes, `randint(5, 35)` for `cost`),
  bulk-saves each batch, commits once, and closes the session.

The embedding below models the database as lists of rows, the session as
a transaction-local `pending` view over a `persisted` view (SQLAlchemy
sessions run inside a transaction: deletes and bulk saves touch only the
open transaction, and the persisted contents change only at `commit`),
and the routine as a straight-line sequence of operations folded over
the state.  Randomness is modelled by passing the generators (`faker`
name and datetime streams, `randint` entropy) as function-valued
parameters.  A run that raises after `k` operations is modelled by
folding only the length-`k` prefix of the operation sequence
(`Bookstore.run`); the unreachable-storage scenario is modelled by an
error-aware interpreter (`Bookstore.runE`) in which every operation that
touches the SQLite file fails when the file is unreachable — matching
the real behaviour, where `create_engine`/`sessionmaker` are lazy and
the first query raises `OperationalError`.
-/

namespace Bookstore

/-- A row of the `books` table.  `id` is the integer primary key; all the
other columns of `models.py` are nullable, hence `Option`. `publish_date`
is a calendar date (modelled as a day count), `cost` an integer. -/
structure BookRow where
  id : Nat
  title : Option String
  author : Option String
  publisher : Option String
  publish_date : Option Nat
  cost : Option Int
deriving Repr, DecidableEq

/-- A row of the `salespeople` table.  `id` is the integer primary key;
`birthday` is a calendar date, the two clock fields are timestamps
(modelled as second counts). -/
structure SalespersonRow where
  id : Nat
  name : Option String
  birthday : Option Nat
  last_clocked_in : Option Nat
  last_clocked_out : Option Nat
deriving Repr, DecidableEq

/-- The contents of the SQLite database: the two tables of `models.py`. -/
structure DB where
  books : List BookRow
  salespeople : List SalespersonRow
deriving Repr, DecidableEq

/-- A database with no rows in either table. -/
def emptyDB : DB := ⟨[], []⟩

/-- The sources of randomness used by `seed()`: the `faker` name stream,
the `faker` datetime stream (seconds since an epoch), and the entropy
consumed by `random.randint`.  Indices count successive calls. -/
structure RandGen where
  names : Nat → String
  dates : Nat → Nat
  ints : Nat → Nat

/-- Python's `random.randint(lo, hi)`: a uniformly drawn integer with
`lo ≤ result ≤ hi`, both bounds inclusive; the draw is modelled as
reducing one entropy value modulo the size of the range. -/
def randint (lo hi : Int) (entropy : Nat) : Int :=
  lo + (entropy % (hi - lo + 1).toNat : Nat)

/-- `datetime.date()`: the calendar date (day count) of a timestamp. -/
def dateOf (dt : Nat) : Nat := dt / 86400

/-- The `i`-th `Book` built by the list comprehension in `seed()`
(`title`, `author`, `publisher` from `fake.name()`, `publish_date` from
`fake.date_time().date()`, `cost` from `randint(5, 35)`), inserted with
primary key `base + 1 + i` — SQLite assigns `max(rowid) + 1` onwards for
an `INTEGER PRIMARY KEY` left unset, where `base` is the largest id
already in the table.  Each book consumes three names and one datetime
from the `faker` instance. -/
def mkBook (gen : RandGen) (base i : Nat) : BookRow :=
  { id := base + 1 + i
    title := some (gen.names (3 * i))
    author := some (gen.names (3 * i + 1))
    publisher := some (gen.names (3 * i + 2))
    publish_date := some (dateOf (gen.dates i))
    cost := some (randint 5 35 (gen.ints i)) }

/-- The list `books` of `seed()`: 50 generated books. -/
def genBooks (gen : RandGen) (base : Nat) : List BookRow :=
  (List.range 50).map (mkBook gen base)

/-- The `i`-th `Salesperson` built by the second list comprehension
(`name` from `fake.name()`, `birthday` from `fake.date_time().date()`,
the two clock fields from `fake.date_time()`), inserted with primary key
`base + 1 + i`.  The `faker` streams continue after the 150 names and 50
datetimes consumed by the books. -/
def mkSalesperson (gen : RandGen) (base i : Nat) : SalespersonRow :=
  { id := base + 1 + i
    name := some (gen.names (150 + i))
    birthday := some (dateOf (gen.dates (50 + 3 * i)))
    last_clocked_in := some (gen.dates (50 + 3 * i + 1))
    last_clocked_out := some (gen.dates (50 + 3 * i + 2)) }

/-- The list `salespeople` of `seed()`: 20 generated salespeople. -/
def genSalespeople (gen : RandGen) (base : Nat) : List SalespersonRow :=
  (List.range 20).map (mkSalesperson gen base)

/-- The largest id currently in a table (0 when empty): the basis of
SQLite rowid assignment. -/
def maxId (ids : List Nat) : Nat := ids.foldr max 0

/-- One primitive operation of the straight-line body of `seed()`. -/
inductive Op where
  | connect
  | deleteBooks
  | deleteSalespeople
  | printLn : String → Op
  | bulkSaveBooks
  | bulkSaveSalespeople
  | commit
  | close
deriving Repr, DecidableEq

/-- The state threading through a run of `seed()`: the persisted
database (the SQLite file as other readers see it), the session's
transaction-local view, the lines written to standard output, whether
the session is connected and whether it has been closed, and the trace
of operations executed so far. -/
structure SeedState where
  persisted : DB
  pending : DB
  output : List String
  connected : Bool
  closed : Bool
  trace : List Op
deriving Repr, DecidableEq

/-- The state at entry of `seed()` over a database `db`. -/
def initState (db : DB) : SeedState :=
  { persisted := db, pending := db, output := [], connected := false,
    closed := false, trace := [] }

/-- `session.bulk_save_objects(books)` on the transaction view: append
the 50 generated books, SQLite assigning primary keys from
`max(rowid) + 1` onwards. -/
def dbSaveBooks (gen : RandGen) (d : DB) : DB :=
  { d with books := d.books ++ genBooks gen (maxId (d.books.map BookRow.id)) }

/-- `session.bulk_save_objects(salespeople)` on the transaction view. -/
def dbSaveSalespeople (gen : RandGen) (d : DB) : DB :=
  { d with salespeople :=
      (d.salespeople ++
        genSalespeople gen (maxId (d.salespeople.map SalespersonRow.id))) }

/-- The effect of one operation of `seed()` on the state.  Deletes and
bulk saves act on the transaction-local view only; `commit` publishes
the transaction.  Every executed operation is recorded in the trace. -/
def applyOp (gen : RandGen) (s : SeedState) (op : Op) : SeedState :=
  let s0 :=
    match op with
    | .connect => { s with connected := true }
    | .deleteBooks => { s with pending := { s.pending with books := [] } }
    | .deleteSalespeople =>
        { s with pending := { s.pending with salespeople := [] } }
    | .printLn msg => { s with output := s.output ++ [msg] }
    | .bulkSaveBooks => { s with pending := dbSaveBooks gen s.pending }
    | .bulkSaveSalespeople =>
        { s with pending := dbSaveSalespeople gen s.pending }
    | .commit => { s with persisted := s.pending }
    | .close => { s with closed := true, connected := false }
  { s0 with trace := s.trace ++ [op] }

/-- The body of `seed()`, line by line: create the session, delete all
books, delete all salespeople, print, bulk-save the 50 books, print,
bulk-save the 20 salespeople, commit, close. -/
def seedOps : List Op :=
  [.connect, .deleteBooks, .deleteSalespeople,
   .printLn "Seeding books...", .bulkSaveBooks,
   .printLn "Seeding salespeople...", .bulkSaveSalespeople,
   .commit, .close]

/-- The state after the first `k` operations of `seed()`: the exit state
of a run that raised during operation `k + 1` (the routine has no
`try`/`finally`, so an exception aborts it exactly here). -/
def run (gen : RandGen) (db : DB) (k : Nat) : SeedState :=
  (seedOps.take k).foldl (applyOp gen) (initState db)

/-- A complete, successful run of `seed()`. -/
def seedFull (gen : RandGen) (db : DB) : SeedState :=
  seedOps.foldl (applyOp gen) (initState db)

/-- Whether an operation touches the SQLite file.  `connect` does not:
`create_engine` and `sessionmaker` are lazy and open the file only at
the first query. -/
def opTouchesStorage : Op → Bool
  | .deleteBooks => true
  | .deleteSalespeople => true
  | .bulkSaveBooks => true
  | .bulkSaveSalespeople => true
  | .commit => true
  | _ => false

/-- Error-aware interpretation of one operation: when the storage file
is unreachable, every operation that touches it raises. -/
def applyOpE (reachable : Bool) (gen : RandGen) (s : SeedState) (op : Op) :
    Except String SeedState :=
  if opTouchesStorage op && !reachable then
    Except.error "OperationalError: unable to open database file"
  else
    Except.ok (applyOp gen s op)

/-- Error-aware run of `seed()`: the first raising operation aborts the
routine and the error propagates out (the routine has no handler). -/
def runE (reachable : Bool) (gen : RandGen) (db : DB) :
    Except String SeedState :=
  seedOps.foldlM (applyOpE reachable gen) (initState db)

/-- The process exit status of the script (`if __name__ == '__main__':
seed()`): 0 when `seed()` returns normally; an uncaught exception makes
the interpreter exit with its default failure status (no explicit
non-zero exit path exists in the script). -/
def exitCode (r : Except String SeedState) : Nat :=
  match r with
  | .ok _ => 0
  | .error _ => 1

/-- A generated book has every field populated. -/
def bookPopulated (b : BookRow) : Bool :=
  b.title.isSome && b.author.isSome && b.publisher.isSome &&
    b.publish_date.isSome && b.cost.isSome

/-- A generated salesperson has every field populated. -/
def salespersonPopulated (p : SalespersonRow) : Bool :=
  p.name.isSome && p.birthday.isSome && p.last_clocked_in.isSome &&
    p.last_clocked_out.isSome

/-- A book's cost is populated and lies in `[5, 35]`. -/
def costInRange (b : BookRow) : Bool :=
  match b.cost with
  | some c => decide (5 ≤ c) && decide (c ≤ 35)
  | none => false

/-- The position of the first occurrence of an operation in a list. -/
def idxOfOp (op : Op) : List Op → Nat
  | [] => 0
  | o :: rest => if o = op then 0 else idxOfOp op rest + 1

/-- A concrete instantiation of the random generators, used to exhibit
concrete runs. -/
def exGen : RandGen :=
  { names := fun _ => "n", dates := fun k => k, ints := fun k => k }

/-- A concrete nonempty database, used to exhibit concrete runs. -/
def exDB : DB :=
  ⟨[⟨1, some "t", some "a", some "p", some 3, some 7⟩],
   [⟨1, some "s", some 2, some 4, some 5⟩]⟩

/-- The complete run of `seed()` computed out: the persisted and pending
views both hold exactly the 50 generated books and 20 generated
salespeople (primary keys from 1, since both tables were emptied first),
the two progress lines were printed in order, the session is closed, and
the trace is the straight-line operation sequence. -/
theorem seedFull_eq (gen : RandGen) (db : DB) :
    seedFull gen db =
      { persisted := ⟨genBooks gen 0, genSalespeople gen 0⟩
        pending := ⟨genBooks gen 0, genSalespeople gen 0⟩
        output := ["Seeding books...", "Seeding salespeople..."]
        connected := false
        closed := true
        trace := seedOps } := rfl

/-- The book table after a full run has exactly 50 rows. -/
theorem seedFull_books_length (gen : RandGen) (db : DB) :
    (seedFull gen db).persisted.books.length = 50 := by
  rw [seedFull_eq]
  simp [genBooks]

/-- The salespeople table after a full run has exactly 20 rows. -/
theorem seedFull_salespeople_length (gen : RandGen) (db : DB) :
    (seedFull gen db).persisted.salespeople.length = 20 := by
  rw [seedFull_eq]
  simp [genSalespeople]

/-- `randint(5, 35)` lies in `[5, 35]` for every entropy value. -/
theorem randint_5_35 (e : Nat) :
    5 ≤ randint 5 35 e ∧ randint 5 35 e ≤ 35 := by
  unfold randint
  have h31 : ((35 : Int) - 5 + 1).toNat = 31 := rfl
  rw [h31]
  have hlt : e % 31 < 31 := Nat.mod_lt _ (by omega)
  omega

/-- The book ids assigned by a bulk save over base `b` are
`b + 1, …, b + 50`. -/
theorem genBooks_ids (gen : RandGen) (b : Nat) :
    (genBooks gen b).map BookRow.id =
      (List.range 50).map (fun i => b + 1 + i) := by
  rw [genBooks, List.map_map]
  rfl

/-- The salesperson ids assigned by a bulk save over base `b` are
`b + 1, …, b + 20`. -/
theorem genSalespeople_ids (gen : RandGen) (b : Nat) :
    (genSalespeople gen b).map SalespersonRow.id =
      (List.range 20).map (fun i => b + 1 + i) := by
  rw [genSalespeople, List.map_map]
  rfl

/-- When the storage file is reachable, the error-aware run of `seed()`
succeeds and returns exactly the state of the straight-line run. -/
theorem runE_true (gen : RandGen) (db : DB) :
    runE true gen db = Except.ok (seedFull gen db) := rfl

/-- C1: after every successful run of the seed routine the storage holds
exactly 50 book rows and exactly 20 salesperson rows, and every row has
all of its fields populated (title, author, publisher, publish_date,
cost for books; name, birthday, last_clocked_in, last_clocked_out for
salespeople). -/
theorem seed_counts_and_fields_populated (gen : RandGen) (db : DB) :
    (seedFull gen db).persisted.books.length = 50 ∧
    (seedFull gen db).persisted.salespeople.length = 20 ∧
    (seedFull gen db).persisted.books.all bookPopulated = true ∧
    (seedFull gen db).persisted.salespeople.all salespersonPopulated
      = true := by
  refine ⟨seedFull_books_length gen db, seedFull_salespeople_length gen db,
    ?_, ?_⟩
  · rw [seedFull_eq]
    simp [genBooks, bookPopulated, mkBook, List.all_eq_true]
  · rw [seedFull_eq]
    simp [genSalespeople, salespersonPopulated, mkSalesperson,
      List.all_eq_true]

/-- C2: every book generated by the seed routine has an integer cost `c`
with `5 ≤ c ≤ 35`, both bounds inclusive. -/
theorem seed_costs_in_range (gen : RandGen) (db : DB) :
    (seedFull gen db).persisted.books.all costInRange = true := by
  rw [seedFull_eq]
  simp only [genBooks, List.all_eq_true, List.mem_map, List.mem_range]
  rintro b ⟨i, hi, rfl⟩
  have h := randint_5_35 (gen.ints i)
  simp [costInRange, mkBook, h.1, h.2]

/-- C3: running the seed routine against an empty database succeeds, and
afterwards the two tables hold exactly the 50 generated book rows and
the 20 generated salesperson rows — nothing else. -/
theorem seed_on_empty_db (gen : RandGen) :
    runE true gen emptyDB = Except.ok (seedFull gen emptyDB) ∧
    (seedFull gen emptyDB).persisted.books = genBooks gen 0 ∧
    (seedFull gen emptyDB).persisted.salespeople = genSalespeople gen 0 ∧
    (seedFull gen emptyDB).persisted.books.length = 50 ∧
    (seedFull gen emptyDB).persisted.salespeople.length = 20 :=
  ⟨runE_true gen emptyDB, rfl, rfl, seedFull_books_length gen emptyDB,
   seedFull_salespeople_length gen emptyDB⟩

/-- C4: after every successful run of the seed routine, the id values in
the books table are pairwise distinct, and so are the id values in the
salespeople table. -/
theorem seed_ids_nodup (gen : RandGen) (db : DB) :
    ((seedFull gen db).persisted.books.map BookRow.id).Nodup ∧
    ((seedFull gen db).persisted.salespeople.map
      SalespersonRow.id).Nodup := by
  rw [seedFull_eq]
  constructor
  · rw [show DB.books ⟨genBooks gen 0, genSalespeople gen 0⟩
        = genBooks gen 0 from rfl]
    rw [genBooks_ids]
    exact List.Nodup.map (fun x y hxy => by omega) (List.nodup_range _)
  · rw [show DB.salespeople ⟨genBooks gen 0, genSalespeople gen 0⟩
        = genSalespeople gen 0 from rfl]
    rw [genSalespeople_ids]
    exact List.Nodup.map (fun x y hxy => by omega) (List.nodup_range _)

/-- C5: running the seed routine twice in succession (with independent
randomness) yields the same row counts after each run — 50 books and 20
salespeople — whatever the database held before either run. -/
theorem seed_twice_same_counts (g1 g2 : RandGen) (db : DB) :
    ((seedFull g1 db).persisted.books.length = 50 ∧
      (seedFull g1 db).persisted.salespeople.length = 20) ∧
    ((seedFull g2 (seedFull g1 db).persisted).persisted.books.length = 50 ∧
      (seedFull g2 (seedFull g1 db).persisted).persisted.salespeople.length
        = 20) :=
  ⟨⟨seedFull_books_length g1 db, seedFull_salespeople_length g1 db⟩,
   ⟨seedFull_books_length g2 _, seedFull_salespeople_length g2 _⟩⟩

/-- C6: every run of the seed routine executes exactly the fixed linear
sequence connect, delete both kinds, print, bulk-save books, print,
bulk-save salespeople, commit, close (the trace never depends on the
generators or on the prior database, so there is no branching or
looping); both deletions precede both insertions, and the single commit
follows all deletes and inserts. -/
theorem seed_linear_sequence (gen : RandGen) (db : DB) :
    (seedFull gen db).trace = seedOps ∧
    seedOps =
      [Op.connect, Op.deleteBooks, Op.deleteSalespeople,
       Op.printLn "Seeding books...", Op.bulkSaveBooks,
       Op.printLn "Seeding salespeople...", Op.bulkSaveSalespeople,
       Op.commit, Op.close] ∧
    seedOps.count Op.commit = 1 ∧
    idxOfOp Op.deleteBooks seedOps < idxOfOp Op.bulkSaveBooks seedOps ∧
    idxOfOp Op.deleteSalespeople seedOps
      < idxOfOp Op.bulkSaveBooks seedOps ∧
    idxOfOp Op.bulkSaveBooks seedOps
      < idxOfOp Op.bulkSaveSalespeople seedOps ∧
    idxOfOp Op.bulkSaveSalespeople seedOps < idxOfOp Op.commit seedOps ∧
    idxOfOp Op.commit seedOps < idxOfOp Op.close seedOps :=
  ⟨rfl, rfl, by decide, by decide, by decide, by decide, by decide,
   by decide⟩

/-- C7: when the storage file is unreachable the seed routine does not
silently succeed: the first operation that touches storage raises, the
error propagates out of the routine (there is no handler), and the
process exit status is not 0. -/
theorem seed_unreachable_storage_fails (gen : RandGen) (db : DB) :
    runE false gen db =
      Except.error "OperationalError: unable to open database file" ∧
    exitCode (runE false gen db) ≠ 0 :=
  ⟨rfl, fun h => Nat.one_ne_zero h⟩

/-- C8: the seed routine commits exactly once, after all deletions and
insertions; a run that aborts after its first `k` operations for any
`k ≤ 7` (that is, at any point before the commit has executed) leaves
the persisted contents of both tables exactly as they were before the
run. -/
theorem seed_commit_once_atomic (gen : RandGen) (db : DB) (k : Nat)
    (h : k ≤ 7) :
    seedOps.count Op.commit = 1 ∧
    idxOfOp Op.deleteBooks seedOps < idxOfOp Op.commit seedOps ∧
    idxOfOp Op.deleteSalespeople seedOps < idxOfOp Op.commit seedOps ∧
    idxOfOp Op.bulkSaveBooks seedOps < idxOfOp Op.commit seedOps ∧
    idxOfOp Op.bulkSaveSalespeople seedOps < idxOfOp Op.commit seedOps ∧
    (run gen db k).persisted = db := by
  refine ⟨by decide, by decide, by decide, by decide, by decide, ?_⟩
  interval_cases k <;> rfl

/-- Witness for C8: a concrete run over a nonempty database that aborts
after 3 operations (right after the second delete) leaves the persisted
database unchanged. -/
theorem seed_commit_once_atomic_witness :
    (run exGen exDB 3).persisted = exDB ∧ seedOps.count Op.commit = 1 :=
  ⟨(seed_commit_once_atomic exGen exDB 3 (by decide)).2.2.2.2.2,
   (seed_commit_once_atomic exGen exDB 3 (by decide)).1⟩

/-- C9: every successful run of the seed script prints exactly the two
progress lines, in order — "Seeding books..." before the book bulk save
and "Seeding salespeople..." after it and before the salesperson bulk
save — and the process exits with status 0 (the error branch of
`exitCode` is the interpreter's default crash, not an explicit code
path of the script). -/
theorem seed_output_lines_and_exit (gen : RandGen) (db : DB) :
    (seedFull gen db).output =
      ["Seeding books...", "Seeding salespeople..."] ∧
    idxOfOp (Op.printLn "Seeding books...") seedOps
      < idxOfOp Op.bulkSaveBooks seedOps ∧
    idxOfOp Op.bulkSaveBooks seedOps
      < idxOfOp (Op.printLn "Seeding salespeople...") seedOps ∧
    idxOfOp (Op.printLn "Seeding salespeople...") seedOps
      < idxOfOp Op.bulkSaveSalespeople seedOps ∧
    exitCode (runE true gen db) = 0 :=
  ⟨rfl, by decide, by decide, by decide, rfl⟩

/-- C10 counterexample: the claim says the storage handle is closed on
ALL exit paths, but `seed()` has no `try`/`finally`: a run that aborts
after 7 operations (the commit raises) exits with the session still
connected, never closed, and no close operation in its trace. -/
theorem seed_close_skipped_on_failure :
    (run exGen exDB 7).closed = false ∧
    (run exGen exDB 7).connected = true ∧
    Op.close ∉ (run exGen exDB 7).trace :=
  ⟨rfl, rfl, by decide⟩

/-- C10 amended: on the successful exit path the seed routine closes the
session before returning — closing is the last operation executed — but
on failing exit paths no explicit release happens. -/
theorem seed_close_on_success (gen : RandGen) (db : DB) :
    (seedFull gen db).closed = true ∧
    (seedFull gen db).connected = false ∧
    (seedFull gen db).trace.getLast? = some Op.close :=
  ⟨rfl, rfl, rfl⟩

end Bookstore
